import Mathlib

/-!
Verification of the marker-delimited output-splitting protocol, the result
reconciler, the unit-test action orchestration and the quit/cancel state
machine of the dataset-foundry repository.

Streams are embedded as `List Char`; Python string primitives (`find`,
slicing, `strip("\n")`, the end-marker regex search) are given executable
definitions below, and the functions of
`src/dataset_foundry/actions/item/run_unit_tests.py`,
`src/dataset_foundry/types/command_result.py` and
`src/dataset_foundry/displays/full/full_display_app.py` are translated on
top of them.
-/

namespace DatasetFoundry

/-- `leadsWith pat s` is true when `pat` occurs at the very beginning of `s`
(the prefix test used by Python substring search at a given position). -/
def leadsWith : List Char → List Char → Bool
  | [], _ => true
  | _ :: _, [] => false
  | p :: ps, c :: cs => p == c && leadsWith ps cs

/-- Scan of Python `str.find`: try to match `pat` at each successive position
of `s`, returning the index (offset by `base`) of the first match. -/
def findFrom (pat : List Char) : List Char → Nat → Option Nat
  | [], i => if leadsWith pat [] then some i else none
  | c :: cs, i => if leadsWith pat (c :: cs) then some i else findFrom pat cs (i + 1)

/-- Python `output.find(pat)`, with `none` for Python's `-1` ("not found"). -/
def findSub (pat s : List Char) : Option Nat :=
  findFrom pat s 0

/-- Remove every trailing newline character (second half of Python
`str.strip("\n")`). -/
def dropTrailingNewlines (s : List Char) : List Char :=
  (s.reverse.dropWhile (· == '\n')).reverse

/-- Python `s.strip("\n")`: remove all leading and trailing newline
characters, leaving internal whitespace untouched. -/
def stripNewlines (s : List Char) : List Char :=
  dropTrailingNewlines (s.dropWhile (· == '\n'))

/-- Value of a nonempty digit string, as computed by Python `int(...)` on the
digits captured by the end-marker pattern. -/
def digitsToNat (ds : List Char) : Nat :=
  ds.foldl (fun a c => a * 10 + (c.toNat - '0'.toNat)) 0

/-- The literal start marker `SETUP_START` of run_unit_tests.py. -/
def SETUP_START : List Char := "::setup:start::".toList

/-- The fixed literal part of the end-marker pattern `::setup:end:(\d+)::`. -/
def SETUP_END_LIT : List Char := "::setup:end:".toList

/-- Attempt to match the end-marker regex `::setup:end:(\d+)::` at the head of
`s`.  On success, return the length of the matched token and the captured
integer.  (The regex `\d+::` matches at a position exactly when the maximal
digit run after the literal is nonempty and immediately followed by `::`:
backtracking inside the digit run cannot succeed because `:` is not a digit.) -/
def matchEndAt (s : List Char) : Option (Nat × Nat) :=
  if leadsWith SETUP_END_LIT s then
    let rest := s.drop SETUP_END_LIT.length
    let digits := rest.takeWhile Char.isDigit
    if digits.isEmpty then none
    else if leadsWith [':', ':'] (rest.drop digits.length) then
      some (SETUP_END_LIT.length + digits.length + 2, digitsToNat digits)
    else none
  else none

/-- A successful end-marker search: the match starts at index `start`, ends at
index `stop` (exclusive) and captured the integer `code`. -/
structure EndMatch where
  start : Nat
  stop : Nat
  code : Nat
deriving DecidableEq, Repr

/-- Left-to-right scan of Python `re.search` for the end-marker pattern. -/
def searchEndFrom : List Char → Nat → Option EndMatch
  | [], i =>
    match matchEndAt [] with
    | some (len, code) => some ⟨i, i + len, code⟩
    | none => none
  | c :: cs, i =>
    match matchEndAt (c :: cs) with
    | some (len, code) => some ⟨i, i + len, code⟩
    | none => searchEndFrom cs (i + 1)

/-- `SETUP_END_PATTERN.search(s)`: leftmost match of `::setup:end:(\d+)::`. -/
def searchEnd (s : List Char) : Option EndMatch :=
  searchEndFrom s 0

/-- Result triple of `_split_stream` (pytest content, setup content, setup
exit code), with `none` for Python `None` and `some (-1)` for the
"incomplete" sentinel. -/
structure SplitResult where
  pytest : List Char
  setup : List Char
  code : Option Int
deriving DecidableEq, Repr

/-- Translation of `_split_stream` from run_unit_tests.py. -/
def split_stream (output : List Char) : SplitResult :=
  match findSub SETUP_START output with
  | none => ⟨stripNewlines output, [], none⟩
  | some startIdx =>
    let contentAfterStart := output.drop (startIdx + SETUP_START.length)
    match searchEnd contentAfterStart with
    | none => ⟨[], stripNewlines contentAfterStart, some (-1)⟩
    | some m =>
      ⟨stripNewlines (contentAfterStart.drop m.stop),
       stripNewlines (contentAfterStart.take m.start),
       some (Int.ofNat m.code)⟩

/-- CommandResult of types/command_result.py: `returncode` is `none` when the
Python field is `None` ("did not complete / unknown"). -/
structure CommandResult where
  command : List (List Char)
  returncode : Option Int
  stdout : List Char
  stderr : List Char
deriving DecidableEq, Repr

/-- The derived property `CommandResult.success`: Python `self.returncode == 0`,
where `None == 0` evaluates to `False`. -/
def CommandResult.success (r : CommandResult) : Bool :=
  r.returncode == some 0

/-- SandboxResult as returned by the Sandbox Execution Adapter
(utils/docker/sandbox_runner.py, an external collaborator): overall exit code
plus the raw stdout/stderr of the whole sandbox run. -/
structure SandboxResult where
  exit_code : Int
  stdout : List Char
  stderr : List Char
deriving DecidableEq, Repr

/-- The reconciled setup exit code before promotion, line 99 of
run_unit_tests.py: the stdout-derived code when present, otherwise the
stderr-derived one ("the setup code parsed from the streams"). -/
def reconciledSetupCode (sr : SandboxResult) : Option Int :=
  match (split_stream sr.stdout).code with
  | some c => some c
  | none => (split_stream sr.stderr).code

/-- Translation of `_parse_sandbox_result` from run_unit_tests.py: split both
streams, reconcile the setup exit code (stdout's takes precedence), and apply
the promotion rule — when the setup code is the incomplete sentinel `-1` or
both pytest slices are empty, attribute the whole run to setup. Returns
(pytest result, setup result). -/
def parse_sandbox_result (sr : SandboxResult) : CommandResult × CommandResult :=
  let so := split_stream sr.stdout
  let se := split_stream sr.stderr
  let setupCode0 : Option Int := reconciledSetupCode sr
  let promote : Bool := setupCode0 == some (-1) || (so.pytest.isEmpty && se.pytest.isEmpty)
  let setupReturncode : Option Int := if promote then some sr.exit_code else setupCode0
  let pytestReturncode : Option Int := if promote then none else some sr.exit_code
  (⟨[], pytestReturncode, so.pytest, se.pytest⟩,
   ⟨[], setupReturncode, so.setup, se.setup⟩)

/-- UnitTestResult of types/unit_test_result.py: a CommandResult extended with
pass/fail counts. -/
structure UnitTestResult where
  command : List (List Char)
  returncode : Option Int
  num_passed : Nat
  num_failed : Nat
  stdout : List Char
  stderr : List Char
deriving DecidableEq, Repr

/-- The value of `sandbox_result` after the synthesis branch of
`run_unit_tests_action` (lines 60–65): when the reconciled pytest returncode
is present, the code assigns `sandbox_result.stdout = pytest_result.stdout`
and `sandbox_result.stderr = pytest_result.stderr` before handing the record
to the external text parser; otherwise the record is left as constructed. -/
def sandbox_result_after_synthesis (sr : SandboxResult) : SandboxResult :=
  let pr := (parse_sandbox_result sr).1
  if pr.returncode ≠ none then
    { sr with stdout := pr.stdout, stderr := pr.stderr }
  else
    sr

/-- A resolved Python parameter value, far enough to express truthiness and
the `isinstance(x, str)` test of `run_unit_tests_action`. -/
inductive PyValue where
  | vNone
  | vStr (s : List Char)
  | vInt (n : Int)
  | vBool (b : Bool)
deriving DecidableEq, Repr

/-- Python truthiness of a resolved value (`if resolved_sandbox:`). -/
def truthy : PyValue → Bool
  | .vNone => false
  | .vStr s => !s.isEmpty
  | .vInt n => n != 0
  | .vBool b => b

/-- Exceptions `run_unit_tests_action` can raise. -/
inductive PyError where
  | valueError
  | unboundLocal
deriving DecidableEq, Repr

/-- Observable effects of one invocation of `run_unit_tests_action`, in
order: invoking the Sandbox Execution Adapter, and each `item.push`. -/
inductive ActionEvent where
  | sandboxRun
  | pushTest (key : List Char) (r : UnitTestResult)
  | pushSetup (key : PyValue) (r : CommandResult)
deriving DecidableEq, Repr

/-- Outcome of one invocation: the effects performed, in order, and the
exception (if any) that terminated the invocation after them. -/
structure ActionOutcome where
  events : List ActionEvent
  error : Option PyError
deriving DecidableEq, Repr

/-- The Test Result Synthesizer, lines 60–73 of run_unit_tests.py: when the
reconciled pytest returncode is present, delegate to the external text parser
(on the sandbox record whose stdout/stderr were overwritten with the
test-content slices) and preserve the constructed command; otherwise
synthesize the zero-count "tests never ran" result. -/
def synthesized_result (sandboxResult : SandboxResult)
    (parsePyResults : SandboxResult → UnitTestResult)
    (command : List (List Char)) : UnitTestResult :=
  let pr := (parse_sandbox_result sandboxResult).1
  if pr.returncode ≠ none then
    { parsePyResults (sandbox_result_after_synthesis sandboxResult) with command := command }
  else
    ⟨command, none, 0, 0, pr.stdout, pr.stderr⟩

/-- Translation of the body of `run_unit_tests_action` after parameter
resolution.  External collaborators are parameters: `sandboxResult` is what
`SandboxRunner.run` returns if invoked, `parsePyResults` is
`parse_python_unit_test_results`, and `localResult` is what
`run_python_unit_tests` returns if invoked.  The local branch never assigns
`setup_result`, so the final `if setup_result is not None` raises
`UnboundLocalError` there — after the test result was already pushed. -/
def run_unit_tests_action
    (resolvedProperty : List Char)
    (resolvedSetupProperty : PyValue)
    (resolvedSandbox : PyValue)
    (sandboxResult : SandboxResult)
    (parsePyResults : SandboxResult → UnitTestResult)
    (localResult : UnitTestResult)
    (command : List (List Char)) : ActionOutcome :=
  if truthy resolvedSandbox then
    match resolvedSandbox with
    | .vStr _ =>
      let setupResult := (parse_sandbox_result sandboxResult).2
      let result := synthesized_result sandboxResult parsePyResults command
      let evs := [ActionEvent.sandboxRun, ActionEvent.pushTest resolvedProperty result]
      let evs :=
        if truthy resolvedSetupProperty then
          evs ++ [ActionEvent.pushSetup resolvedSetupProperty setupResult]
        else evs
      ⟨evs, none⟩
    | _ => ⟨[], some .valueError⟩
  else
    ⟨[ActionEvent.pushTest resolvedProperty localResult], some .unboundLocal⟩

/-- Observable state of `FullDisplayApp` relevant to quitting: the
`_is_quitting` flag, whether the pipeline worker exists and is unfinished,
and counters for the cleanup notices appended to the console and the
cancellation sequences scheduled via `_cancel_pipeline`. -/
structure QuitState where
  is_quitting : Bool
  workerRunning : Bool
  notices : Nat
  cancels : Nat
  exited : Bool
deriving DecidableEq, Repr

/-- Translation of `FullDisplayApp.action_quit`: a no-op when `_is_quitting`
is already set; otherwise set the flag, and either append one cleanup notice
and schedule one cancellation (worker still running), or exit immediately. -/
def action_quit (s : QuitState) : QuitState :=
  if s.is_quitting then s
  else if s.workerRunning then
    { s with is_quitting := true, notices := s.notices + 1, cancels := s.cancels + 1 }
  else
    { s with is_quitting := true, exited := true }

/-- `pat` occurs at position `i` of `s` and at no earlier position: the
specification of what Python `s.find(pat)` locates. -/
def firstOccurAt (pat s : List Char) (i : Nat) : Prop :=
  leadsWith pat (s.drop i) = true ∧ ∀ j, j < i → leadsWith pat (s.drop j) = false

/-- The end-marker pattern matches at position `k` of `s` with token length
`len` and captured integer `n`, and at no earlier position: the specification
of what `re.search` locates. -/
def endMatchAt (s : List Char) (k len n : Nat) : Prop :=
  matchEndAt (s.drop k) = some (len, n) ∧ ∀ j, j < k → matchEndAt (s.drop j) = none

instance decFirstOccurAt (pat s : List Char) (i : Nat) : Decidable (firstOccurAt pat s i) := by
  unfold firstOccurAt
  infer_instance

instance decEndMatchAt (s : List Char) (k len n : Nat) : Decidable (endMatchAt s k len n) := by
  unfold endMatchAt
  infer_instance

/-- `xs` is a contiguous slice of `ys`. -/
def sliceOf (xs ys : List Char) : Prop :=
  ∃ a b, ys = a ++ xs ++ b

/-- A string consisting only of newline characters (the material removed by
`strip("\n")`). -/
def nlOnly (xs : List Char) : Prop :=
  ∀ c ∈ xs, c = '\n'

end DatasetFoundry

namespace DatasetFoundry

lemma leadsWith_append (p s : List Char) : leadsWith p (p ++ s) = true := by
  induction p with
  | nil => rfl
  | cons c cs ih => simp [leadsWith, ih]

lemma findSub_append_self (p s : List Char) (hp : p ≠ []) : findSub p (p ++ s) = some 0 := by
  cases p with
  | nil => exact absurd rfl hp
  | cons c cs =>
    have h := leadsWith_append (c :: cs) s
    rw [List.cons_append] at h
    show findFrom (c :: cs) (c :: (cs ++ s)) 0 = some 0
    simp [findFrom, h]

lemma findFrom_eq_some (pat : List Char) :
    ∀ (i : Nat) (s : List Char) (base : Nat),
      leadsWith pat (s.drop i) = true →
      (∀ j, j < i → leadsWith pat (s.drop j) = false) →
      findFrom pat s base = some (base + i)
  | 0, s, base, h1, _ => by
    cases s with
    | nil => simpa [findFrom] using h1
    | cons c cs =>
      simp only [List.drop_zero] at h1
      simp [findFrom, h1]
  | (i + 1), s, base, h1, h2 => by
    cases s with
    | nil =>
      have h0 := h2 0 (Nat.succ_pos _)
      simp only [List.drop_nil] at h0 h1
      rw [h1] at h0
      cases h0
    | cons c cs =>
      have h0 := h2 0 (Nat.succ_pos _)
      simp only [List.drop_zero] at h0
      have ih := findFrom_eq_some pat i cs (base + 1)
        (by simpa using h1)
        (fun j hj => by simpa using h2 (j + 1) (Nat.succ_lt_succ hj))
      simp only [findFrom, h0, Bool.false_eq_true, if_false, ih]
      congr 1
      omega

lemma searchEndFrom_eq_some :
    ∀ (k : Nat) (s : List Char) (base len n : Nat),
      matchEndAt (s.drop k) = some (len, n) →
      (∀ j, j < k → matchEndAt (s.drop j) = none) →
      searchEndFrom s base = some ⟨base + k, base + k + len, n⟩
  | 0, s, base, len, n, h1, _ => by
    cases s with
    | nil =>
      simp only [List.drop_nil] at h1
      simp [searchEndFrom, h1]
    | cons c cs =>
      simp only [List.drop_zero] at h1
      simp [searchEndFrom, h1]
  | (k + 1), s, base, len, n, h1, h2 => by
    cases s with
    | nil =>
      have h0 := h2 0 (Nat.succ_pos _)
      simp only [List.drop_nil] at h0 h1
      rw [h1] at h0
      cases h0
    | cons c cs =>
      have h0 := h2 0 (Nat.succ_pos _)
      simp only [List.drop_zero] at h0
      have ih := searchEndFrom_eq_some k cs (base + 1) len n
        (by simpa using h1)
        (fun j hj => by simpa using h2 (j + 1) (Nat.succ_lt_succ hj))
      simp only [searchEndFrom, h0, ih]
      rw [show base + 1 + k = base + (k + 1) by omega]

lemma split_stream_no_marker (out : List Char) (h : findSub SETUP_START out = none) :
    split_stream out = ⟨stripNewlines out, [], none⟩ := by
  simp [split_stream, h]

lemma split_stream_eq_of_markers (output : List Char) (i k len n : Nat)
    (h1 : firstOccurAt SETUP_START output i)
    (h2 : endMatchAt (output.drop (i + SETUP_START.length)) k len n) :
    split_stream output =
      ⟨stripNewlines ((output.drop (i + SETUP_START.length)).drop (k + len)),
       stripNewlines ((output.drop (i + SETUP_START.length)).take k),
       some (Int.ofNat n)⟩ := by
  obtain ⟨ha, hb⟩ := h1
  obtain ⟨hc, hd⟩ := h2
  have hf : findSub SETUP_START output = some i := by
    simpa [findSub] using findFrom_eq_some SETUP_START i output 0 ha hb
  have hs : searchEnd (output.drop (i + SETUP_START.length)) = some ⟨k, k + len, n⟩ := by
    simpa [searchEnd] using
      searchEndFrom_eq_some k (output.drop (i + SETUP_START.length)) 0 len n hc hd
  simp [split_stream, hf, hs]

lemma dropTrailing_reconstruct (t : List Char) :
    ∃ b, nlOnly b ∧ t = dropTrailingNewlines t ++ b := by
  refine ⟨(t.reverse.takeWhile (· == '\n')).reverse, ?_, ?_⟩
  · intro c hc
    rw [List.mem_reverse] at hc
    simpa using List.mem_takeWhile_imp hc
  · calc t = t.reverse.reverse := (List.reverse_reverse t).symm
    _ = (t.reverse.takeWhile (· == '\n') ++ t.reverse.dropWhile (· == '\n')).reverse := by
        rw [List.takeWhile_append_dropWhile]
    _ = (t.reverse.dropWhile (· == '\n')).reverse ++ (t.reverse.takeWhile (· == '\n')).reverse := by
        rw [List.reverse_append]
    _ = dropTrailingNewlines t ++ (t.reverse.takeWhile (· == '\n')).reverse := rfl

lemma stripNewlines_reconstruct (s : List Char) :
    ∃ a b, nlOnly a ∧ nlOnly b ∧ s = a ++ stripNewlines s ++ b := by
  obtain ⟨b, hb, ht⟩ := dropTrailing_reconstruct (s.dropWhile (· == '\n'))
  refine ⟨s.takeWhile (· == '\n'), b, ?_, hb, ?_⟩
  · intro c hc
    simpa using List.mem_takeWhile_imp hc
  · conv_lhs => rw [← List.takeWhile_append_dropWhile (p := (· == '\n')) (l := s)]
    rw [ht]
    simp [stripNewlines, List.append_assoc]

lemma sliceOf_stripNewlines (s : List Char) : sliceOf (stripNewlines s) s := by
  obtain ⟨a, b, _, _, h⟩ := stripNewlines_reconstruct s
  exact ⟨a, b, h⟩

lemma sliceOf_trans {xs ys zs : List Char} (h1 : sliceOf xs ys) (h2 : sliceOf ys zs) :
    sliceOf xs zs := by
  obtain ⟨a, b, rfl⟩ := h1
  obtain ⟨c, d, rfl⟩ := h2
  exact ⟨c ++ a, b ++ d, by simp⟩

lemma sliceOf_take (s : List Char) (k : Nat) : sliceOf (s.take k) s :=
  ⟨[], s.drop k, by simp⟩

lemma sliceOf_drop (s : List Char) (k : Nat) : sliceOf (s.drop k) s :=
  ⟨s.take k, [], by simp⟩

example : split_stream "hello\n".toList = ⟨"hello".toList, [], none⟩ := by decide

example :
    split_stream "::setup:start::\nbuilding\n::setup:end:0::\n1 passed".toList
      = ⟨"1 passed".toList, "building".toList, some 0⟩ := by decide

example :
    split_stream "::setup:start::\ninstalling deps...".toList
      = ⟨[], "installing deps...".toList, some (-1)⟩ := by decide

-- Scenario A of the spec
example :
    parse_sandbox_result ⟨0, "::setup:start::\nbuilding\n::setup:end:0::\n1 passed".toList, []⟩
      = (⟨[], some 0, "1 passed".toList, []⟩, ⟨[], some 0, "building".toList, []⟩) := by decide

-- Scenario B of the spec
example :
    parse_sandbox_result ⟨137, "::setup:start::\ninstalling deps...".toList, []⟩
      = (⟨[], none, [], []⟩, ⟨[], some 137, "installing deps...".toList, []⟩) := by decide

-- Scenario C of the spec
example :
    parse_sandbox_result ⟨1, "3 passed, 1 failed".toList, []⟩
      = (⟨[], some 1, "3 passed, 1 failed".toList, []⟩, ⟨[], none, [], []⟩) := by decide

/-- C1: for every SandboxResult, if the reconciled setup code parsed from the
streams is the incomplete sentinel `-1`, or the splitter's test-content
slices derived from stdout and stderr are both empty, then `reconcile`
(`_parse_sandbox_result`) returns a test CommandResult whose returncode is
absent and a setup CommandResult whose returncode equals the sandbox's
overall `exit_code`, regardless of any setup code parsed from either
stream. -/
theorem reconcile_promotes_on_sentinel_or_empty (sr : SandboxResult)
    (h : reconciledSetupCode sr = some (-1) ∨
         ((split_stream sr.stdout).pytest = [] ∧ (split_stream sr.stderr).pytest = [])) :
    (parse_sandbox_result sr).1.returncode = none ∧
    (parse_sandbox_result sr).2.returncode = some sr.exit_code := by
  have hb : (reconciledSetupCode sr == some (-1)
      || ((split_stream sr.stdout).pytest.isEmpty && (split_stream sr.stderr).pytest.isEmpty))
      = true := by
    rcases h with h | ⟨h1, h2⟩
    · simp [h]
    · simp [h1, h2]
  simp [parse_sandbox_result, hb]

/-- Witness for C1 at a concrete sandbox result whose stdout has a start
marker but no end marker (sentinel `-1`) and exit code 7. -/
theorem reconcile_promotes_on_sentinel_or_empty_witness :
    (parse_sandbox_result ⟨7, "::setup:start::abc".toList, []⟩).1.returncode = none ∧
    (parse_sandbox_result ⟨7, "::setup:start::abc".toList, []⟩).2.returncode = some 7 :=
  reconcile_promotes_on_sentinel_or_empty ⟨7, "::setup:start::abc".toList, []⟩
    (Or.inl (by decide))

/-- C9: for every CommandResult, the derived property `success` is true iff
the returncode equals zero exactly; an absent or nonzero returncode yields
`success = false`, so absence is never confused with a zero/success code. -/
theorem success_iff_returncode_zero (r : CommandResult) :
    (r.success = true ↔ r.returncode = some 0) ∧
    (r.returncode = none → r.success = false) ∧
    (∀ n : Int, n ≠ 0 → r.returncode = some n → r.success = false) := by
  refine ⟨?_, ?_, ?_⟩
  · simp [CommandResult.success]
  · intro h
    simp [CommandResult.success, h]
  · intro n hn h
    simp [CommandResult.success, h, hn]

/-- Witness for C9 at concrete results with absent and with nonzero
returncodes. -/
theorem success_iff_returncode_zero_witness :
    CommandResult.success ⟨[], none, [], []⟩ = false ∧
    CommandResult.success ⟨[], some 5, [], []⟩ = false :=
  ⟨(success_iff_returncode_zero ⟨[], none, [], []⟩).2.1 rfl,
   (success_iff_returncode_zero ⟨[], some 5, [], []⟩).2.2 5 (by decide) rfl⟩

lemma action_quit_of_quitting (s : QuitState) (h : s.is_quitting = true) :
    action_quit s = s := by
  simp [action_quit, h]

/-- C8: while the pipeline worker is running, the first quit request appends
exactly one cleanup notice and schedules exactly one cancellation sequence
(and does not exit the session), and every subsequent quit request is a
no-op: iterating `action_quit` any further leaves the state unchanged. -/
theorem quit_requests_idempotent (s : QuitState)
    (h1 : s.is_quitting = false) (h2 : s.workerRunning = true) :
    (action_quit s).notices = s.notices + 1 ∧
    (action_quit s).cancels = s.cancels + 1 ∧
    (action_quit s).exited = s.exited ∧
    ∀ n : Nat, action_quit^[n] (action_quit s) = action_quit s := by
  have hq : action_quit s =
      { s with is_quitting := true, notices := s.notices + 1, cancels := s.cancels + 1 } := by
    simp [action_quit, h1, h2]
  refine ⟨by rw [hq], by rw [hq], by rw [hq], ?_⟩
  intro n
  induction n with
  | zero => rfl
  | succ m ih =>
    rw [Function.iterate_succ_apply', ih]
    exact action_quit_of_quitting _ (by rw [hq])

/-- Witness for C8: from a fresh running session, one quit request yields one
notice, and five further quit requests change nothing. -/
theorem quit_requests_idempotent_witness :
    (action_quit ⟨false, true, 0, 0, false⟩).notices = 1 ∧
    action_quit^[5] (action_quit ⟨false, true, 0, 0, false⟩)
      = action_quit ⟨false, true, 0, 0, false⟩ :=
  ⟨(quit_requests_idempotent ⟨false, true, 0, 0, false⟩ rfl rfl).1,
   (quit_requests_idempotent ⟨false, true, 0, 0, false⟩ rfl rfl).2.2.2 5⟩

/-- C2: in the local path (sandbox resolves to a falsy value such as `None`),
the action publishes the local UnitTestResult under the test-result key and
publishes no setup result, but the invocation does NOT complete cleanly: the
trailing `if setup_result is not None` reads a variable that was never
assigned in this branch, so the invocation ends with an `UnboundLocalError`
after the test result was pushed. -/
theorem local_run_raises_unbound_local
    (rp : List Char) (rsp rs : PyValue) (sbr : SandboxResult)
    (parsePy : SandboxResult → UnitTestResult) (lr : UnitTestResult)
    (cmd : List (List Char)) (h : truthy rs = false) :
    run_unit_tests_action rp rsp rs sbr parsePy lr cmd
      = ⟨[ActionEvent.pushTest rp lr], some .unboundLocal⟩ := by
  simp [run_unit_tests_action, h]

/-- Witness for C2 at a concrete local invocation with no sandbox value. -/
theorem local_run_raises_unbound_local_witness :
    run_unit_tests_action "test_result".toList (.vStr "setup_result".toList) .vNone
        ⟨0, [], []⟩ (fun sr => ⟨[], some sr.exit_code, 0, 0, sr.stdout, sr.stderr⟩)
        ⟨[], some 0, 1, 0, "1 passed".toList, []⟩ []
      = ⟨[ActionEvent.pushTest "test_result".toList ⟨[], some 0, 1, 0, "1 passed".toList, []⟩],
         some .unboundLocal⟩ :=
  local_run_raises_unbound_local "test_result".toList (.vStr "setup_result".toList) .vNone
    ⟨0, [], []⟩ (fun sr => ⟨[], some sr.exit_code, 0, 0, sr.stdout, sr.stderr⟩)
    ⟨[], some 0, 1, 0, "1 passed".toList, []⟩ [] rfl

/-- C3: in a sandboxed invocation with a truthy setup-result key, even when
NO setup phase was detected (no start marker in either stream), the code
still publishes exactly one setup CommandResult — with empty stdout and
stderr — under the setup key: `_parse_sandbox_result` never returns `None`
for setup, so the `setup_result is not None` guard is dead and the spec's
"publish nothing for setup" case never happens. -/
theorem setup_published_without_setup_phase
    (rp : List Char) (rsp : PyValue) (s : List Char) (sbr : SandboxResult)
    (parsePy : SandboxResult → UnitTestResult) (lr : UnitTestResult)
    (cmd : List (List Char))
    (hs : s ≠ []) (hkey : truthy rsp = true)
    (h1 : findSub SETUP_START sbr.stdout = none)
    (h2 : findSub SETUP_START sbr.stderr = none) :
    run_unit_tests_action rp rsp (.vStr s) sbr parsePy lr cmd
      = ⟨[ActionEvent.sandboxRun,
          ActionEvent.pushTest rp (synthesized_result sbr parsePy cmd),
          ActionEvent.pushSetup rsp (parse_sandbox_result sbr).2], none⟩ ∧
    (parse_sandbox_result sbr).2.stdout = [] ∧
    (parse_sandbox_result sbr).2.stderr = [] := by
  have htr : truthy (.vStr s) = true := by
    cases s with
    | nil => exact absurd rfl hs
    | cons c cs => rfl
  have hso := split_stream_no_marker sbr.stdout h1
  have hse := split_stream_no_marker sbr.stderr h2
  refine ⟨by simp [run_unit_tests_action, htr, hkey], ?_, ?_⟩ <;>
    simp [parse_sandbox_result, hso, hse]

/-- Witness for C3 at a concrete marker-free sandbox run with the default
setup key configured. -/
theorem setup_published_without_setup_phase_witness :
    run_unit_tests_action "test_result".toList (.vStr "setup_result".toList)
        (.vStr "docker".toList) ⟨0, "3 passed".toList, []⟩
        (fun sr => ⟨[], some sr.exit_code, 0, 0, sr.stdout, sr.stderr⟩)
        ⟨[], some 0, 1, 0, [], []⟩ []
      = ⟨[ActionEvent.sandboxRun,
          ActionEvent.pushTest "test_result".toList
            (synthesized_result ⟨0, "3 passed".toList, []⟩
              (fun sr => ⟨[], some sr.exit_code, 0, 0, sr.stdout, sr.stderr⟩) []),
          ActionEvent.pushSetup (.vStr "setup_result".toList)
            (parse_sandbox_result ⟨0, "3 passed".toList, []⟩).2], none⟩ ∧
    (parse_sandbox_result ⟨0, "3 passed".toList, []⟩).2.stdout = [] ∧
    (parse_sandbox_result ⟨0, "3 passed".toList, []⟩).2.stderr = [] :=
  setup_published_without_setup_phase "test_result".toList (.vStr "setup_result".toList)
    "docker".toList ⟨0, "3 passed".toList, []⟩
    (fun sr => ⟨[], some sr.exit_code, 0, 0, sr.stdout, sr.stderr⟩)
    ⟨[], some 0, 1, 0, [], []⟩ [] (by decide) rfl (by decide) (by decide)

/-- C6 counterexample: a sandbox identifier that resolves to the non-string
value `0` does NOT raise the configuration error before any execution —
instead the action takes the local path, publishes a test result, and fails
with an `UnboundLocalError`, refuting the claim that any non-string resolved
value raises a configuration error with nothing published. -/
theorem nonstring_sandbox_cex :
    (run_unit_tests_action "test_result".toList (.vStr "setup_result".toList) (.vInt 0)
        ⟨0, [], []⟩ (fun sr => ⟨[], some sr.exit_code, 0, 0, sr.stdout, sr.stderr⟩)
        ⟨[], some 0, 1, 0, [], []⟩ []).error ≠ some .valueError ∧
    (run_unit_tests_action "test_result".toList (.vStr "setup_result".toList) (.vInt 0)
        ⟨0, [], []⟩ (fun sr => ⟨[], some sr.exit_code, 0, 0, sr.stdout, sr.stderr⟩)
        ⟨[], some 0, 1, 0, [], []⟩ []).events ≠ [] := by
  constructor <;> decide

/-- C6 amended: when the sandbox identifier resolves to a TRUTHY value of any
type other than a plain string, the configuration error (ValueError) is
raised before any execution: the adapter is never invoked and nothing is
published. (A falsy non-string value such as `0` instead selects the local
path.) -/
theorem nonstring_truthy_sandbox_config_error
    (rp : List Char) (rsp rs : PyValue) (sbr : SandboxResult)
    (parsePy : SandboxResult → UnitTestResult) (lr : UnitTestResult)
    (cmd : List (List Char))
    (h1 : truthy rs = true) (h2 : ∀ t, rs ≠ .vStr t) :
    run_unit_tests_action rp rsp rs sbr parsePy lr cmd = ⟨[], some .valueError⟩ := by
  cases rs with
  | vNone => simp [truthy] at h1
  | vStr t => exact absurd rfl (h2 t)
  | vInt m => simp [run_unit_tests_action, h1]
  | vBool b => simp [run_unit_tests_action, h1]

/-- Witness for the amended C6 at the truthy non-string value `5`. -/
theorem nonstring_truthy_sandbox_config_error_witness :
    run_unit_tests_action "test_result".toList (.vStr "setup_result".toList) (.vInt 5)
        ⟨0, [], []⟩ (fun sr => ⟨[], some sr.exit_code, 0, 0, sr.stdout, sr.stderr⟩)
        ⟨[], some 0, 1, 0, [], []⟩ [] = ⟨[], some .valueError⟩ :=
  nonstring_truthy_sandbox_config_error "test_result".toList (.vStr "setup_result".toList)
    (.vInt 5) ⟨0, [], []⟩ (fun sr => ⟨[], some sr.exit_code, 0, 0, sr.stdout, sr.stderr⟩)
    ⟨[], some 0, 1, 0, [], []⟩ [] rfl (fun t h => by cases h)

/-- C4 counterexample: the SandboxResult is NOT retained unmodified through
result synthesis — on a run whose test phase produced output, lines 62–63 of
run_unit_tests.py overwrite its stdout/stderr with the test-content slices,
so the record after synthesis differs from the one the adapter returned. -/
theorem sandbox_result_mutated_cex :
    sandbox_result_after_synthesis
        ⟨0, "::setup:start::\nbuilding\n::setup:end:0::\n1 passed".toList, []⟩
      ≠ ⟨0, "::setup:start::\nbuilding\n::setup:end:0::\n1 passed".toList, []⟩ := by
  decide

/-- C4 amended: neither the SandboxResult nor the UnitTestResult is immutable
after construction.  During result synthesis the SandboxResult's `exit_code`
is never modified and, when the reconciled test returncode is absent, the
record is unchanged; but when it is present, the record's stdout and stderr
are overwritten with the reconciled test-phase slices (lines 62–63), and the
UnitTestResult returned by the text parser then has its `command` field
reassigned to the constructed command (line 65), all its other fields
retained. -/
theorem synthesis_mutation_characterized (sr : SandboxResult)
    (parsePy : SandboxResult → UnitTestResult) (cmd : List (List Char)) :
    (sandbox_result_after_synthesis sr).exit_code = sr.exit_code ∧
    ((parse_sandbox_result sr).1.returncode = none → sandbox_result_after_synthesis sr = sr) ∧
    ((parse_sandbox_result sr).1.returncode ≠ none →
      (sandbox_result_after_synthesis sr).stdout = (parse_sandbox_result sr).1.stdout ∧
      (sandbox_result_after_synthesis sr).stderr = (parse_sandbox_result sr).1.stderr) ∧
    ((parse_sandbox_result sr).1.returncode ≠ none →
      synthesized_result sr parsePy cmd
        = { parsePy (sandbox_result_after_synthesis sr) with command := cmd }) ∧
    ((parse_sandbox_result sr).1.returncode ≠ none →
      (synthesized_result sr parsePy cmd).command = cmd) := by
  by_cases h : (parse_sandbox_result sr).1.returncode = none
  · refine ⟨?_, fun _ => ?_, fun hn => absurd h hn, fun hn => absurd h hn,
      fun hn => absurd h hn⟩ <;>
      simp [sandbox_result_after_synthesis, h]
  · refine ⟨?_, fun hh => absurd hh h, fun _ => ⟨?_, ?_⟩, fun _ => ?_, fun _ => ?_⟩ <;>
      simp [sandbox_result_after_synthesis, synthesized_result, h]

/-- Witness for the amended C4: scenario B (test never ran) leaves the
sandbox record unchanged; scenario A (test ran) shows its stdout replaced by
the test slice, and the parser-returned UnitTestResult's command replaced by
the constructed command. -/
theorem synthesis_mutation_characterized_witness :
    sandbox_result_after_synthesis ⟨137, "::setup:start::\ninstalling deps...".toList, []⟩
      = ⟨137, "::setup:start::\ninstalling deps...".toList, []⟩ ∧
    (sandbox_result_after_synthesis
        ⟨0, "::setup:start::\nbuilding\n::setup:end:0::\n1 passed".toList, []⟩).stdout
      = (parse_sandbox_result
        ⟨0, "::setup:start::\nbuilding\n::setup:end:0::\n1 passed".toList, []⟩).1.stdout ∧
    (synthesized_result ⟨0, "::setup:start::\nbuilding\n::setup:end:0::\n1 passed".toList, []⟩
        (fun sr => ⟨["old".toList], some sr.exit_code, 1, 0, sr.stdout, sr.stderr⟩)
        ["run".toList]).command
      = ["run".toList] :=
  ⟨(synthesis_mutation_characterized ⟨137, "::setup:start::\ninstalling deps...".toList, []⟩
      (fun sr => ⟨["old".toList], some sr.exit_code, 1, 0, sr.stdout, sr.stderr⟩)
      ["run".toList]).2.1 (by decide),
   ((synthesis_mutation_characterized
      ⟨0, "::setup:start::\nbuilding\n::setup:end:0::\n1 passed".toList, []⟩
      (fun sr => ⟨["old".toList], some sr.exit_code, 1, 0, sr.stdout, sr.stderr⟩)
      ["run".toList]).2.2.1 (by decide)).1,
   (synthesis_mutation_characterized
      ⟨0, "::setup:start::\nbuilding\n::setup:end:0::\n1 passed".toList, []⟩
      (fun sr => ⟨["old".toList], some sr.exit_code, 1, 0, sr.stdout, sr.stderr⟩)
      ["run".toList]).2.2.2.2 (by decide)⟩

/-- C10: when the input stream contains the start marker (first occurrence at
index `i`), everything before it is silently discarded: the split result is
exactly what splitting `SETUP_START ++ suffix` yields, and both returned
content slices are contiguous slices of the text after the marker. -/
theorem split_stream_discards_before_marker (output : List Char) (i : Nat)
    (h : findSub SETUP_START output = some i) :
    split_stream output
      = split_stream (SETUP_START ++ output.drop (i + SETUP_START.length)) ∧
    sliceOf (split_stream output).pytest (output.drop (i + SETUP_START.length)) ∧
    sliceOf (split_stream output).setup (output.drop (i + SETUP_START.length)) := by
  have hfind2 : findSub SETUP_START (SETUP_START ++ output.drop (i + SETUP_START.length))
      = some 0 :=
    findSub_append_self _ _ (by decide)
  have hdrop : (SETUP_START ++ output.drop (i + SETUP_START.length)).drop
      (0 + SETUP_START.length) = output.drop (i + SETUP_START.length) := by
    rw [Nat.zero_add]
    exact List.drop_left _ _
  refine ⟨?_, ?_⟩
  · simp only [split_stream, h, hfind2, hdrop]
  · cases hse : searchEnd (output.drop (i + SETUP_START.length)) with
    | none =>
      have hx : split_stream output
          = ⟨[], stripNewlines (output.drop (i + SETUP_START.length)), some (-1)⟩ := by
        simp [split_stream, h, hse]
      rw [hx]
      exact ⟨⟨output.drop (i + SETUP_START.length), [], by simp⟩, sliceOf_stripNewlines _⟩
    | some m =>
      have hx : split_stream output
          = ⟨stripNewlines ((output.drop (i + SETUP_START.length)).drop m.stop),
             stripNewlines ((output.drop (i + SETUP_START.length)).take m.start),
             some (Int.ofNat m.code)⟩ := by
        simp [split_stream, h, hse]
      rw [hx]
      exact ⟨sliceOf_trans (sliceOf_stripNewlines _) (sliceOf_drop _ _),
             sliceOf_trans (sliceOf_stripNewlines _) (sliceOf_take _ _)⟩

/-- Witness for C10 at a stream with four junk characters before the start
marker. -/
theorem split_stream_discards_before_marker_witness :
    split_stream "junk::setup:start::abc::setup:end:2::ok".toList
      = split_stream (SETUP_START
          ++ "junk::setup:start::abc::setup:end:2::ok".toList.drop (4 + SETUP_START.length)) ∧
    sliceOf (split_stream "junk::setup:start::abc::setup:end:2::ok".toList).pytest
      ("junk::setup:start::abc::setup:end:2::ok".toList.drop (4 + SETUP_START.length)) ∧
    sliceOf (split_stream "junk::setup:start::abc::setup:end:2::ok".toList).setup
      ("junk::setup:start::abc::setup:end:2::ok".toList.drop (4 + SETUP_START.length)) :=
  split_stream_discards_before_marker "junk::setup:start::abc::setup:end:2::ok".toList 4
    (by decide)

/-- C5: for every text whose first start-marker occurrence is at `i` and
where the leftmost end-marker match in the remainder is at `k` with token
length `len` and captured integer `n`, `split` returns test content equal to
the text after the end marker with boundary newlines trimmed, setup content
equal to the text strictly between the markers with boundary newlines
trimmed, and setup code `n`; each returned slice is carved from the region
strictly between, respectively strictly after, the two marker occurrences,
so the delimiting marker tokens themselves appear in neither slice. -/
theorem split_stream_both_markers (output : List Char) (i k len n : Nat)
    (h1 : firstOccurAt SETUP_START output i)
    (h2 : endMatchAt (output.drop (i + SETUP_START.length)) k len n) :
    split_stream output =
      ⟨stripNewlines ((output.drop (i + SETUP_START.length)).drop (k + len)),
       stripNewlines ((output.drop (i + SETUP_START.length)).take k),
       some (Int.ofNat n)⟩ ∧
    sliceOf (split_stream output).setup ((output.drop (i + SETUP_START.length)).take k) ∧
    sliceOf (split_stream output).pytest ((output.drop (i + SETUP_START.length)).drop (k + len)) := by
  have he := split_stream_eq_of_markers output i k len n h1 h2
  refine ⟨he, ?_, ?_⟩ <;> rw [he] <;> exact sliceOf_stripNewlines _

/-- Witness for C5 at scenario A of the spec, prefixed with two junk
characters (`i = 2`, end match at `k = 10` with token length 15 and code 0). -/
theorem split_stream_both_markers_witness :
    split_stream "xx::setup:start::\nbuilding\n::setup:end:0::\n1 passed".toList
      = ⟨"1 passed".toList, "building".toList, some 0⟩ := by
  have h := (split_stream_both_markers
      "xx::setup:start::\nbuilding\n::setup:end:0::\n1 passed".toList 2 10 15 0
      (by decide) (by decide)).1
  rw [h]
  decide

/-- C7 counterexample: with stream `"::setup:start::A\n::setup:end:0::\nB"`,
the portion after the start marker minus the end-marker token is
`"A\n" ++ "\nB"`, but the concatenation of the returned setup and test
content is `"AB"` — the boundary newlines were trimmed away, so the
concatenation does not reconstruct that portion. -/
theorem concat_not_reconstruct_cex :
    "::setup:start::A\n::setup:end:0::\nB".toList
        = SETUP_START ++ ("A\n".toList ++ "::setup:end:0::".toList ++ "\nB".toList) ∧
    (split_stream "::setup:start::A\n::setup:end:0::\nB".toList).setup
        ++ (split_stream "::setup:start::A\n::setup:end:0::\nB".toList).pytest
      ≠ "A\n".toList ++ "\nB".toList := by
  constructor <;> decide

/-- C7 amended: the setup and test regions are mutually exclusive slices of
the same stream; re-padding each returned slice with newline-only boundary
strings, their concatenation (setup content first, then test content)
reconstructs the portion of the stream following the start marker, minus the
delimiting end-marker token — i.e. the reconstruction holds up to the
boundary newlines that trimming removed from each slice. -/
theorem concat_reconstructs_up_to_newlines (output : List Char) (i k len n : Nat)
    (h1 : firstOccurAt SETUP_START output i)
    (h2 : endMatchAt (output.drop (i + SETUP_START.length)) k len n) :
    ∃ a b c d : List Char, nlOnly a ∧ nlOnly b ∧ nlOnly c ∧ nlOnly d ∧
      a ++ (split_stream output).setup ++ b ++ (c ++ (split_stream output).pytest ++ d)
        = (output.drop (i + SETUP_START.length)).take k
            ++ (output.drop (i + SETUP_START.length)).drop (k + len) := by
  have he := split_stream_eq_of_markers output i k len n h1 h2
  obtain ⟨a, b, ha, hb, hab⟩ :=
    stripNewlines_reconstruct ((output.drop (i + SETUP_START.length)).take k)
  obtain ⟨c, d, hc, hd, hcd⟩ :=
    stripNewlines_reconstruct ((output.drop (i + SETUP_START.length)).drop (k + len))
  refine ⟨a, b, c, d, ha, hb, hc, hd, ?_⟩
  have hsetup : (split_stream output).setup
      = stripNewlines ((output.drop (i + SETUP_START.length)).take k) := by rw [he]
  have hpy : (split_stream output).pytest
      = stripNewlines ((output.drop (i + SETUP_START.length)).drop (k + len)) := by rw [he]
  rw [hsetup, hpy]
  conv_rhs => rw [hab, hcd]

/-- Witness for the amended C7 at a concrete stream with both markers and
newline padding around both regions. -/
theorem concat_reconstructs_up_to_newlines_witness :
    ∃ a b c d : List Char, nlOnly a ∧ nlOnly b ∧ nlOnly c ∧ nlOnly d ∧
      a ++ (split_stream "::setup:start::A\n::setup:end:7::\nB\n".toList).setup ++ b
        ++ (c ++ (split_stream "::setup:start::A\n::setup:end:7::\nB\n".toList).pytest ++ d)
        = ("::setup:start::A\n::setup:end:7::\nB\n".toList.drop (0 + SETUP_START.length)).take 2
            ++ ("::setup:start::A\n::setup:end:7::\nB\n".toList.drop
                (0 + SETUP_START.length)).drop (2 + 15) :=
  concat_reconstructs_up_to_newlines "::setup:start::A\n::setup:end:7::\nB\n".toList 0 2 15 7
    (by decide) (by decide)

end DatasetFoundry
